import Mathlib

/-!
Shallow embedding of the control-message (ancillary data) core of the
`interprocess` repository, together with theorems checking the claims of the
natural-language specification against it.

Platform model: Linux x86-64 (glibc). There, `size_of::<cmsghdr>() = 16`,
`align_of::<cmsghdr>() = 8`, `size_of::<usize>() = 8`, `c_uint` is 32 bits
wide, and the `CMSG_*` macros of the platform libc are

  CMSG_ALIGN(l) = (l + sizeof(size_t) - 1) & ~(sizeof(size_t) - 1)
  CMSG_LEN(l)   = CMSG_ALIGN(sizeof(cmsghdr)) + l
  CMSG_SPACE(l) = CMSG_ALIGN(l) + CMSG_ALIGN(sizeof(cmsghdr))
  CMSG_FIRSTHDR(m) = m.msg_controllen >= sizeof(cmsghdr) ? m.msg_control : NULL

The program reaches `CMSG_LEN` and `CMSG_SPACE` through the shims of the
Rust libc crate, whose Linux signatures (forced by the call sites in the
source, `libc::CMSG_LEN(payload_size)` with `payload_size: c_uint` and
`libc::CMSG_SPACE(self.data.len() as c_uint)`) take and return `c_uint`:
their results are therefore reduced `% 2 ^ 32`, which the embedding keeps.

Machine integers are modelled as `Nat` with explicit reduction `% 2 ^ 64`
(`usize`) or `% 2 ^ 32` (`c_uint`) where overflow can occur; `usize`
arithmetic that can overflow is given the two-complement wrapping semantics.
`Nat` subtraction is truncated and therefore coincides with
`usize::saturating_sub`. A Rust function that can panic is embedded with an
`Option`/`Except` result, `none`/`error` being the panic.

The width of the `cmsg_len` field of `cmsghdr` (`CmsghdrLen`) and of the
`msg_controllen` field of `msghdr` vary across Unices, so the corresponding
maxima are kept as explicit parameters `cmsghdrLenMax` and `controllenMax` of
the embedded functions; `linuxControllenMax` instantiates them for the
modelled platform, where both fields are `size_t`.
-/

/-- Number of values of `usize` on the modelled platform (64-bit). -/
def usizeCard : Nat := 2 ^ 64

/-- Largest value of `c_uint` (32 bits on the modelled platform). -/
def c_uint_MAX : Nat := 2 ^ 32 - 1

/-- Value of `size_of::<cmsghdr>()` on the modelled platform. -/
def sizeof_cmsghdr : Nat := 16

/-- Value of `align_of::<cmsghdr>()` on the modelled platform. -/
def alignof_cmsghdr : Nat := 8

/-- The libc macro `CMSG_ALIGN`: round `l` up to a multiple of
`sizeof(size_t) = 8`. -/
def CMSG_ALIGN (l : Nat) : Nat := (l + 7) / 8 * 8

/-- The libc-crate shim of `CMSG_LEN`: it takes and returns `c_uint`, so the
sum `CMSG_ALIGN(sizeof(cmsghdr)) + l` wraps `% 2 ^ 32` (`l` is a `c_uint`
value, `l < 2 ^ 32`). -/
def CMSG_LEN (l : Nat) : Nat := (CMSG_ALIGN sizeof_cmsghdr + l) % 2 ^ 32

/-- The libc-crate shim of `CMSG_SPACE`: the sum is computed over `usize`
(where it cannot overflow for `c_uint` arguments) and then cast back to the
`c_uint` return type, truncating `% 2 ^ 32`. -/
def CMSG_SPACE (l : Nat) : Nat := (CMSG_ALIGN l + CMSG_ALIGN sizeof_cmsghdr) % 2 ^ 32

/-- Maximum of the `cmsg_len` / `msg_controllen` storage type on the modelled
platform (both are `size_t` on Linux, hence `usize::MAX`). -/
def linuxControllenMax : Nat := 2 ^ 64 - 1

/-- A control message: level, type and payload, as in
`struct Cmsg { cmsg_level: c_int, cmsg_type: c_int, data: &[u8] }`.
Payload bytes are a list, the `c_int` fields are integers. -/
structure Cmsg where
  cmsg_level : Int
  cmsg_type : Int
  data : List Nat
deriving DecidableEq, Repr

/-- Embeds `Cmsg::new(cmsg_level, cmsg_type, data)`: asserts
`data.len() <= c_uint::MAX` (the panic of the assertion is `none`) and
otherwise returns the structure holding the three arguments. -/
def Cmsg.new (cmsg_level cmsg_type : Int) (data : List Nat) : Option Cmsg :=
  if data.length ≤ c_uint_MAX then
    some { cmsg_level := cmsg_level, cmsg_type := cmsg_type, data := data }
  else
    none

/-- Embeds `Cmsg::cmsg_len_for_payload_size(payload_size)`: computes
`libc::CMSG_LEN(payload_size)` (a `c_uint`) and panics (`none`) when that
result exceeds `CmsghdrLen::MAX as _` — the maximum of the `cmsg_len`
storage type (the parameter `cmsghdrLenMax`) cast to the `c_uint` type of
`len`, hence truncated `% 2 ^ 32`; on Linux, where `CmsghdrLen` is `usize`,
the truncated maximum is `c_uint::MAX` and the guard can never fire. -/
def Cmsg.cmsg_len_for_payload_size (cmsghdrLenMax payload_size : Nat) : Option Nat :=
  let len := CMSG_LEN payload_size
  if len > cmsghdrLenMax % 2 ^ 32 then none else some len

/-- Embeds `Cmsg::cmsg_len(&self)`: alias for
`Self::cmsg_len_for_payload_size(self.data.len() as c_uint)`. -/
def Cmsg.cmsg_len (m : Cmsg) (cmsghdrLenMax : Nat) : Option Nat :=
  Cmsg.cmsg_len_for_payload_size cmsghdrLenMax (m.data.length % 2 ^ 32)

/-- Embeds `Cmsg::space_occupied(&self)`:
`libc::CMSG_SPACE(self.data.len() as c_uint)`. -/
def Cmsg.space_occupied (m : Cmsg) : Nat := CMSG_SPACE (m.data.length % 2 ^ 32)

/-- Embeds `Cmsg::clone_unchecked(&self)`: bitwise copy of the three fields, the
payload slice referencing the same bytes. -/
def Cmsg.clone_unchecked (m : Cmsg) : Cmsg :=
  { cmsg_level := m.cmsg_level, cmsg_type := m.cmsg_type, data := m.data }

/-- The `msghdr` fields relevant to `align_first`: the control-buffer address
(`msg_control`, a `usize` address) and `msg_controllen`. -/
structure Msghdr where
  msg_control : Nat
  msg_controllen : Nat
deriving DecidableEq, Repr

/-- Modelled from the spec: `to_msghdr_controllen` lives in the absent
`util.rs`; per the spec it converts a buffer length to the `msg_controllen`
field and fails when the length is not representable in the control-length
storage type, whose maximum is the parameter `controllenMax`. -/
def to_msghdr_controllen (controllenMax len : Nat) : Option Nat :=
  if len ≤ controllenMax then some len else none

/-- Embeds `dummy_msghdr(buf)`: zeroed `msghdr` whose `msg_control` is the buffer
address and whose `msg_controllen` is `to_msghdr_controllen(buf.len())`,
the `.expect` panic being `none`. -/
def dummy_msghdr (controllenMax base len : Nat) : Option Msghdr :=
  (to_msghdr_controllen controllenMax len).map
    (fun c => { msg_control := base, msg_controllen := c })

/-- The libc macro `CMSG_FIRSTHDR`: the control address when at least one
`cmsghdr` fits in `msg_controllen`, otherwise NULL (`none`). -/
def CMSG_FIRSTHDR (h : Msghdr) : Option Nat :=
  if sizeof_cmsghdr ≤ h.msg_controllen then some h.msg_control else none

/-- Embeds `align_up(base, align)` from the source: `mask = align - 1;`
`nudged = base + mask;` `nudged & !mask`, over `usize` with wrapping
addition; `!mask` is complement within 64 bits. -/
def align_up (base align : Nat) : Nat :=
  let mask := align - 1
  let nudged := (base + mask) % usizeCard
  nudged &&& ((usizeCard - 1) ^^^ mask)

/-- The synthetic message descriptor built inside `align_first`: the dummy
`msghdr` with `msg_control` advanced by the forward adjustment
(`wrapping_add`) and `msg_controllen` reduced by it (`saturating_sub`, which
is the truncated subtraction of `Nat`). -/
def synthetic_msghdr (h : Msghdr) (fwd_align : Nat) : Msghdr :=
  { msg_control := (h.msg_control + fwd_align) % usizeCard,
    msg_controllen := h.msg_controllen - fwd_align }

/-- Embeds `align_first(buf)`: for a buffer at address `base` with length `len`:
computes the forward alignment adjustment of the base address, builds the
dummy `msghdr` (panicking, `Except.error`, when the length is not
representable), derives the synthetic descriptor from it, applies
`CMSG_FIRSTHDR` and translates the resulting address back to an offset from
`base` (wrapping pointer difference). -/
def align_first (controllenMax base len : Nat) : Except String (Option Nat) :=
  let aligned := align_up base alignof_cmsghdr
  let fwd_align := (aligned + usizeCard - base) % usizeCard
  match dummy_msghdr controllenMax base len with
  | none => Except.error "failed to create dummy msghdr"
  | some h =>
    match CMSG_FIRSTHDR (synthetic_msghdr h fwd_align) with
    | none => Except.ok none
    | some b => Except.ok (some ((b + usizeCard - base) % usizeCard))

/-- Modelled from the spec: a socket path, either a filesystem path or an
abstract-namespace name; the enum itself is outside `src/`, but the code in
`datagram.rs` distinguishes the `File` variant from the rest. -/
inductive UdSocketPath where
  | File (path : String)
  | Namespaced (name : String)
deriving DecidableEq, Repr

/-- Modelled from the spec: the path drop guard, a record of an optional
path and an enabled flag. -/
structure PathDropGuard where
  path : Option UdSocketPath
  enabled : Bool
deriving DecidableEq, Repr

/-- Embeds `PathDropGuard::dummy()`: the disabled guard holding no path. -/
def PathDropGuard.dummy : PathDropGuard := { path := none, enabled := false }

/-- The drop-guard-relevant state of `UdDatagram`. -/
structure UdDatagram where
  _drop_guard : PathDropGuard
deriving DecidableEq, Repr

/-- Embeds `UdDatagram::unbound()` on the success path: a socket with a dummy drop
guard. -/
def UdDatagram.unbound : UdDatagram := { _drop_guard := PathDropGuard.dummy }

/-- Embeds `UdDatagram::_bind_with_drop_guard(&mut self, path)` on the success path:
installs an enabled guard holding the path only when the path matches
`UdSocketPath::File(..)`; otherwise the guard field is left as it was. -/
def UdDatagram._bind_with_drop_guard (s : UdDatagram) (path : UdSocketPath) : UdDatagram :=
  match path with
  | UdSocketPath.File _ => { s with _drop_guard := { path := some path, enabled := true } }
  | _ => s

/-- Embeds `UdDatagram::_bound(path, keep_drop_guard)` on the success path: an
unbound socket, then `_bind_with_drop_guard` or plain `_bind` (which leaves
the guard untouched). -/
def UdDatagram._bound (path : UdSocketPath) (keep_drop_guard : Bool) : UdDatagram :=
  if keep_drop_guard then
    UdDatagram.unbound._bind_with_drop_guard path
  else
    UdDatagram.unbound

/-- Embeds `impl From<OwnedFd> for UdDatagram`: a dummy guard. -/
def UdDatagram.from_owned_fd : UdDatagram := { _drop_guard := PathDropGuard.dummy }

/-- The drop-guard-relevant state of `UdStreamListener`. -/
structure UdStreamListener where
  _drop_guard : PathDropGuard
deriving DecidableEq, Repr

/-- Embeds `UdStreamListener::_bind(path, keep_drop_guard, nonblocking)` on the
success path: installs an enabled guard holding the path whenever
`keep_drop_guard` is set, for every path variant; a dummy guard otherwise. -/
def UdStreamListener._bind (path : UdSocketPath) (keep_drop_guard : Bool) : UdStreamListener :=
  if keep_drop_guard then
    { _drop_guard := { path := some path, enabled := true } }
  else
    { _drop_guard := PathDropGuard.dummy }

/-- Embeds `impl From<OwnedFd> for UdStreamListener`: a dummy guard. -/
def UdStreamListener.from_owned_fd : UdStreamListener := { _drop_guard := PathDropGuard.dummy }

theorem land_mask8 (x : Nat) (hx : x < 2 ^ 64) : x &&& (2 ^ 64 - 8) = x - x % 8 := by
  have hdiv : x - x % 8 = (x >>> 3) <<< 3 := by
    rw [Nat.shiftRight_eq_div_pow, Nat.shiftLeft_eq]
    have h := Nat.mod_add_div x 8
    norm_num
    omega
  rw [hdiv]
  have hm : (2:Nat) ^ 64 - 8 = (2 ^ 61 - 1) <<< 3 := by
    rw [Nat.shiftLeft_eq]
    norm_num
  rw [hm]
  apply Nat.eq_of_testBit_eq
  intro i
  rw [Nat.testBit_land, Nat.testBit_shiftLeft, Nat.testBit_shiftLeft,
    Nat.testBit_shiftRight, Nat.testBit_two_pow_sub_one]
  by_cases h3 : 3 ≤ i
  · by_cases h64 : i < 64
    · have h1 : 3 + (i - 3) = i := by omega
      have h2 : i - 3 < 61 := by omega
      simp [h1, h2, ge_iff_le, h3]
    · have hb1 : x.testBit i = false :=
        Nat.testBit_lt_two_pow (lt_of_lt_of_le hx (Nat.pow_le_pow_right (by norm_num) (by omega)))
      have hb2 : x.testBit (3 + (i - 3)) = false := by
        rw [show 3 + (i - 3) = i by omega]
        exact hb1
      simp [hb1, hb2]
  · simp [ge_iff_le, h3]

theorem align_up8_eq (base : Nat) (h : base + 7 < usizeCard) :
    align_up base alignof_cmsghdr = (base + 7) / 8 * 8 := by
  unfold align_up alignof_cmsghdr usizeCard at *
  have hmask : ((2:Nat) ^ 64 - 1) ^^^ (8 - 1) = 2 ^ 64 - 8 := by decide
  simp only [hmask, Nat.mod_eq_of_lt h, land_mask8 (base + 7) h]
  omega

theorem fwd8_eq (base : Nat) (hb : base < usizeCard) :
    (align_up base alignof_cmsghdr + usizeCard - base) % usizeCard = (8 - base % 8) % 8 := by
  by_cases h : base + 7 < usizeCard
  · rw [align_up8_eq base h]
    unfold usizeCard at *
    omega
  · unfold align_up alignof_cmsghdr usizeCard at *
    have hmask : ((2:Nat) ^ 64 - 1) ^^^ (8 - 1) = 2 ^ 64 - 8 := by decide
    have hlt : (base + 7) % 2 ^ 64 < 2 ^ 64 := Nat.mod_lt _ (by norm_num)
    simp only [hmask, land_mask8 ((base + 7) % 2 ^ 64) hlt]
    omega

theorem align_first_eq (controllenMax base len : Nat) (hb : base < usizeCard) :
    align_first controllenMax base len =
      if len ≤ controllenMax then
        (if sizeof_cmsghdr ≤ len - (8 - base % 8) % 8 then
          Except.ok (some ((8 - base % 8) % 8))
        else Except.ok none)
      else Except.error "failed to create dummy msghdr" := by
  simp only [align_first, dummy_msghdr, to_msghdr_controllen, CMSG_FIRSTHDR, synthetic_msghdr]
  rw [fwd8_eq base hb]
  by_cases h1 : len ≤ controllenMax
  · by_cases h2 : sizeof_cmsghdr ≤ len - (8 - base % 8) % 8
    · have hoff : ((base + (8 - base % 8) % 8) % usizeCard + usizeCard - base) % usizeCard
          = (8 - base % 8) % 8 := by
        unfold usizeCard at *
        omega
      simp [h1, h2, hoff]
    · simp [h1, h2]
  · simp [h1]

/-- C1: whenever `align_first` returns an offset, that offset lies within
`[0, capacity)` and the capacity past it leaves room for a `cmsghdr`. -/
theorem align_first_postcondition (controllenMax base len off : Nat)
    (hb : base < usizeCard)
    (h : align_first controllenMax base len = Except.ok (some off)) :
    off < len ∧ sizeof_cmsghdr ≤ len - off := by
  rw [align_first_eq controllenMax base len hb] at h
  by_cases h1 : len ≤ controllenMax
  · by_cases h2 : sizeof_cmsghdr ≤ len - (8 - base % 8) % 8
    · simp [h1, h2] at h
      unfold sizeof_cmsghdr at *
      omega
    · simp [h1, h2] at h
  · simp [h1] at h

theorem align_first_postcondition_witness :
    align_first linuxControllenMax 1 32 = Except.ok (some 7) ∧
      (7 < 32 ∧ sizeof_cmsghdr ≤ 32 - 7) :=
  ⟨rfl, align_first_postcondition linuxControllenMax 1 32 7 (by norm_num [usizeCard]) rfl⟩

/-- C10: when the buffer length is not representable in the control-length
field, `align_first` panics via the `expect` in `dummy_msghdr` rather than
returning `None`; and it returns `None` only when no header-aligned offset
leaves room for a `cmsghdr` within the (representable) capacity. -/
theorem align_first_panic_or_none (controllenMax base len : Nat)
    (hb : base < usizeCard) :
    (controllenMax < len →
      align_first controllenMax base len = Except.error "failed to create dummy msghdr") ∧
    (align_first controllenMax base len = Except.ok none →
      ¬ ∃ off, (base + off) % alignof_cmsghdr = 0 ∧ off + sizeof_cmsghdr ≤ len) := by
  rw [align_first_eq controllenMax base len hb]
  constructor
  · intro hlen
    simp [show ¬ len ≤ controllenMax by omega]
  · intro h ⟨off, hoff, hfit⟩
    by_cases h1 : len ≤ controllenMax
    · by_cases h2 : sizeof_cmsghdr ≤ len - (8 - base % 8) % 8
      · simp [h1, h2] at h
      · unfold sizeof_cmsghdr alignof_cmsghdr at *
        omega
    · simp [h1] at h

theorem align_first_panic_or_none_witness :
    align_first 10 0 32 = Except.error "failed to create dummy msghdr" ∧
      ¬ ∃ off, (0 + off) % alignof_cmsghdr = 0 ∧ off + sizeof_cmsghdr ≤ 10 :=
  ⟨(align_first_panic_or_none 10 0 32 (by norm_num [usizeCard])).1 (by norm_num),
    (align_first_panic_or_none 10 0 10 (by norm_num [usizeCard])).2 rfl⟩

/-- C5 counterexample: at the top of the address space the claim fails; at
`base = 2^64 - 1` with the platform alignment 8, `align_up` wraps around and
returns 0, which is not the smallest multiple of 8 that is `≥ base` (it is
not even `≥ base`). -/
theorem align_up_wrap_counterexample :
    align_up (2 ^ 64 - 1) alignof_cmsghdr = 0 ∧
      ¬ (2 ^ 64 - 1 ≤ align_up (2 ^ 64 - 1) alignof_cmsghdr) := by
  constructor
  · rfl
  · intro h
    rw [show align_up (2 ^ 64 - 1) alignof_cmsghdr = 0 from rfl] at h
    omega

/-- C5 (amended): for every base address such that rounding up does not
overflow `usize` (`base + align - 1 < 2^64`), `align_up(base, 8)` is the
smallest multiple of the platform header alignment that is `≥ base`; the
forward adjustment is `< align`, and an aligned base is a fixed point. -/
theorem align_up_correct (base m : Nat) (h : base + (alignof_cmsghdr - 1) < usizeCard) :
    align_up base alignof_cmsghdr % alignof_cmsghdr = 0 ∧
    base ≤ align_up base alignof_cmsghdr ∧
    align_up base alignof_cmsghdr - base < alignof_cmsghdr ∧
    (base ≤ m → m % alignof_cmsghdr = 0 → align_up base alignof_cmsghdr ≤ m) ∧
    (base % alignof_cmsghdr = 0 → align_up base alignof_cmsghdr = base) := by
  have h7 : base + 7 < usizeCard := by
    unfold alignof_cmsghdr at h
    omega
  rw [align_up8_eq base h7]
  unfold alignof_cmsghdr
  omega

theorem align_up_correct_witness :
    align_up 3 alignof_cmsghdr % alignof_cmsghdr = 0 ∧
    3 ≤ align_up 3 alignof_cmsghdr ∧
    align_up 3 alignof_cmsghdr - 3 < alignof_cmsghdr ∧
    (3 ≤ 8 → 8 % alignof_cmsghdr = 0 → align_up 3 alignof_cmsghdr ≤ 8) ∧
    (3 % alignof_cmsghdr = 0 → align_up 3 alignof_cmsghdr = 3) :=
  align_up_correct 3 8 (by norm_num [usizeCard, alignof_cmsghdr])

/-- C2 counterexample: at payload length `2^32 - 23` the `c_uint` result of
`CMSG_SPACE` wraps to 0, while the wire header length plus the padding to
the next header-alignment boundary is `2^32`, so the claimed identity fails
in the program at this concrete control message. -/
theorem space_occupied_wrap_counterexample :
    (Cmsg.mk 0 0 (List.replicate (2 ^ 32 - 23) 0)).space_occupied = 0 ∧
    (Cmsg.mk 0 0 (List.replicate (2 ^ 32 - 23) 0)).cmsg_len linuxControllenMax
      = some (2 ^ 32 - 7) ∧
    (0 : Nat) ≠ (2 ^ 32 - 7) + (CMSG_ALIGN (2 ^ 32 - 7) - (2 ^ 32 - 7)) := by
  have h1 : ∀ L : List Nat, L.length = 2 ^ 32 - 23 →
      (Cmsg.mk 0 0 L).space_occupied = 0 := by
    intro L hL
    simp only [Cmsg.space_occupied]
    rw [hL]
    norm_num [CMSG_SPACE, CMSG_ALIGN, sizeof_cmsghdr]
  have h2 : ∀ L : List Nat, L.length = 2 ^ 32 - 23 →
      (Cmsg.mk 0 0 L).cmsg_len linuxControllenMax = some (2 ^ 32 - 7) := by
    intro L hL
    simp only [Cmsg.cmsg_len]
    rw [hL]
    norm_num [Cmsg.cmsg_len_for_payload_size, CMSG_LEN, CMSG_ALIGN, sizeof_cmsghdr,
      linuxControllenMax]
  exact ⟨h1 _ (List.length_replicate _ _), h2 _ (List.length_replicate _ _),
    by norm_num [CMSG_ALIGN]⟩

/-- C2 (amended): for a control message whose payload length is representable
in `c_uint` and whose padded space also fits `c_uint` (so the `c_uint`
results of the libc size shims do not wrap), the space it occupies in a
buffer is its wire header length plus the padding required to reach the next
header-alignment boundary. -/
theorem space_occupied_eq_len_plus_padding (m : Cmsg) (v : Nat)
    (hlen : m.data.length ≤ c_uint_MAX)
    (hspace : CMSG_ALIGN m.data.length + CMSG_ALIGN sizeof_cmsghdr ≤ c_uint_MAX)
    (hv : m.cmsg_len linuxControllenMax = some v) :
    m.space_occupied = v + (CMSG_ALIGN v - v) := by
  unfold Cmsg.cmsg_len Cmsg.cmsg_len_for_payload_size at hv
  have hmod : m.data.length % 2 ^ 32 = m.data.length := by
    unfold c_uint_MAX at hlen
    omega
  rw [hmod] at hv
  have hov : ¬ CMSG_LEN m.data.length > linuxControllenMax % 2 ^ 32 := by
    unfold CMSG_LEN CMSG_ALIGN sizeof_cmsghdr linuxControllenMax
    omega
  simp only [hov, if_false, Option.some.injEq] at hv
  subst hv
  unfold Cmsg.space_occupied CMSG_SPACE CMSG_LEN CMSG_ALIGN sizeof_cmsghdr at *
  rw [hmod]
  unfold c_uint_MAX at hlen hspace
  omega

theorem space_occupied_eq_len_plus_padding_witness :
    ({ cmsg_level := 1, cmsg_type := 2, data := [170, 170, 170, 170] } : Cmsg).space_occupied
      = 20 + (CMSG_ALIGN 20 - 20) :=
  space_occupied_eq_len_plus_padding
    { cmsg_level := 1, cmsg_type := 2, data := [170, 170, 170, 170] } 20
    (by norm_num [c_uint_MAX]) (by norm_num [CMSG_ALIGN, sizeof_cmsghdr, c_uint_MAX]) rfl

/-- C3 counterexample: the overflow guard is dead on Linux and the `c_uint`
result of `CMSG_LEN` wraps, so on the real non-panicking range the function
is not monotone: it returns `2^32 - 1` at payload size `2^32 - 17` but 0 at
the larger payload size `2^32 - 16`. -/
theorem cmsg_len_monotone_counterexample :
    Cmsg.cmsg_len_for_payload_size linuxControllenMax (2 ^ 32 - 17) = some (2 ^ 32 - 1) ∧
    Cmsg.cmsg_len_for_payload_size linuxControllenMax (2 ^ 32 - 16) = some 0 ∧
    ¬ ((2 : Nat) ^ 32 - 1 ≤ 0) :=
  ⟨rfl, rfl, by norm_num⟩

/-- C3 (amended): `cmsg_len_for_payload_size` is monotonic non-decreasing on
payload sizes in the non-panicking range for which the `c_uint` computation
of `CMSG_LEN` does not wrap, that is, the wire header length fits `c_uint`. -/
theorem cmsg_len_for_payload_size_monotone (cmsghdrLenMax n1 n2 v1 v2 : Nat)
    (h12 : n1 ≤ n2)
    (hw : CMSG_ALIGN sizeof_cmsghdr + n2 ≤ c_uint_MAX)
    (h1 : Cmsg.cmsg_len_for_payload_size cmsghdrLenMax n1 = some v1)
    (h2 : Cmsg.cmsg_len_for_payload_size cmsghdrLenMax n2 = some v2) :
    v1 ≤ v2 := by
  simp only [Cmsg.cmsg_len_for_payload_size] at h1 h2
  by_cases b1 : CMSG_LEN n1 > cmsghdrLenMax % 2 ^ 32
  · rw [if_pos b1] at h1
    exact Option.noConfusion h1
  · by_cases b2 : CMSG_LEN n2 > cmsghdrLenMax % 2 ^ 32
    · rw [if_pos b2] at h2
      exact Option.noConfusion h2
    · rw [if_neg b1, Option.some.injEq] at h1
      rw [if_neg b2, Option.some.injEq] at h2
      subst h1
      subst h2
      unfold CMSG_LEN CMSG_ALIGN sizeof_cmsghdr at *
      unfold c_uint_MAX at hw
      omega

theorem cmsg_len_for_payload_size_monotone_witness :
    3 ≤ 5 ∧ (19 : Nat) ≤ 21 :=
  ⟨by norm_num,
    cmsg_len_for_payload_size_monotone linuxControllenMax 3 5 19 21 (by norm_num)
      (by norm_num [CMSG_ALIGN, sizeof_cmsghdr, c_uint_MAX]) rfl rfl⟩

/-- C4 counterexample: at payload size `2^32 - 1` the wire header length
`CMSG_ALIGN(sizeof(cmsghdr)) + N = 2^32 + 15` does not exceed the Linux
`cmsg_len` storage maximum, yet the function neither panics nor returns that
length: the `c_uint` shim wraps and the program returns 15. -/
theorem cmsg_len_for_payload_size_wrap_counterexample :
    Cmsg.cmsg_len_for_payload_size linuxControllenMax (2 ^ 32 - 1) = some 15 ∧
    CMSG_ALIGN sizeof_cmsghdr + (2 ^ 32 - 1) ≤ linuxControllenMax ∧
    (15 : Nat) ≠ CMSG_ALIGN sizeof_cmsghdr + (2 ^ 32 - 1) :=
  ⟨rfl, by norm_num [CMSG_ALIGN, sizeof_cmsghdr, linuxControllenMax],
    by norm_num [CMSG_ALIGN, sizeof_cmsghdr]⟩

/-- C4 (amended): `cmsg_len_for_payload_size(N)` panics exactly when the
`c_uint` value of `CMSG_LEN(N)` exceeds the `cmsg_len` storage maximum
truncated to `c_uint` (on Linux the truncated maximum is `c_uint::MAX`, so
the function never panics); when it returns, it returns exactly that
`c_uint` value, which equals the untruncated wire header length
`CMSG_ALIGN(sizeof(cmsghdr)) + N` exactly when the latter fits `c_uint`. -/
theorem cmsg_len_for_payload_size_spec (cmsghdrLenMax payload_size : Nat)
    (_hp : payload_size ≤ c_uint_MAX) :
    (Cmsg.cmsg_len_for_payload_size cmsghdrLenMax payload_size = none ↔
      cmsghdrLenMax % 2 ^ 32 < CMSG_LEN payload_size) ∧
    (CMSG_LEN payload_size ≤ cmsghdrLenMax % 2 ^ 32 →
      Cmsg.cmsg_len_for_payload_size cmsghdrLenMax payload_size
        = some (CMSG_LEN payload_size)) ∧
    (CMSG_ALIGN sizeof_cmsghdr + payload_size ≤ c_uint_MAX →
      CMSG_LEN payload_size = CMSG_ALIGN sizeof_cmsghdr + payload_size) := by
  refine ⟨?_, ?_, ?_⟩
  · simp only [Cmsg.cmsg_len_for_payload_size]
    by_cases b : CMSG_LEN payload_size > cmsghdrLenMax % 2 ^ 32
    · rw [if_pos b]
      exact iff_of_true rfl (by omega)
    · rw [if_neg b]
      exact iff_of_false (fun h => Option.noConfusion h) (by omega)
  · intro hle
    simp only [Cmsg.cmsg_len_for_payload_size]
    rw [if_neg (show ¬ CMSG_LEN payload_size > cmsghdrLenMax % 2 ^ 32 by omega)]
  · intro hfit
    unfold CMSG_LEN
    unfold c_uint_MAX at hfit
    omega

theorem cmsg_len_for_payload_size_spec_witness :
    (Cmsg.cmsg_len_for_payload_size 10 4 = none ↔ 10 % 2 ^ 32 < CMSG_LEN 4) ∧
      (CMSG_LEN 4 ≤ 10 % 2 ^ 32 →
        Cmsg.cmsg_len_for_payload_size 10 4 = some (CMSG_LEN 4)) ∧
      (CMSG_ALIGN sizeof_cmsghdr + 4 ≤ c_uint_MAX →
        CMSG_LEN 4 = CMSG_ALIGN sizeof_cmsghdr + 4) :=
  cmsg_len_for_payload_size_spec 10 4 (by norm_num [c_uint_MAX])

/-- C6: the synthetic descriptor built by `align_first` has the capacity of
the original buffer reduced by the forward adjustment with saturation at
zero: the subtraction never underflows, and an adjustment exceeding the
capacity yields capacity exactly 0. -/
theorem synthetic_msghdr_controllen_saturates (controllenMax base len fwd : Nat)
    (h : Msghdr) (hh : dummy_msghdr controllenMax base len = some h) :
    ((synthetic_msghdr h fwd).msg_controllen : Int) = max ((len : Int) - fwd) 0 ∧
    (len < fwd → (synthetic_msghdr h fwd).msg_controllen = 0) := by
  unfold dummy_msghdr to_msghdr_controllen at hh
  by_cases hc : len ≤ controllenMax
  · simp only [hc, if_true, Option.map_some', Option.some.injEq] at hh
    subst hh
    unfold synthetic_msghdr
    constructor
    · simp only []
      omega
    · intro hlt
      simp only []
      omega
  · simp [hc] at hh

theorem synthetic_msghdr_controllen_saturates_witness :
    ((synthetic_msghdr { msg_control := 1, msg_controllen := 3 } 7).msg_controllen : Int)
        = max ((3 : Int) - 7) 0 ∧
      (3 < 7 → (synthetic_msghdr { msg_control := 1, msg_controllen := 3 } 7).msg_controllen = 0) :=
  synthetic_msghdr_controllen_saturates linuxControllenMax 1 3 7
    { msg_control := 1, msg_controllen := 3 } rfl

/-- C7: `Cmsg::new` returns a view whose level, type and payload are exactly
the arguments whenever the payload length fits `c_uint`, and panics (so no
`Cmsg` is produced) whenever it does not. -/
theorem cmsg_new_spec (l t : Int) (d : List Nat) :
    (d.length ≤ c_uint_MAX →
      Cmsg.new l t d = some { cmsg_level := l, cmsg_type := t, data := d }) ∧
    (c_uint_MAX < d.length → Cmsg.new l t d = none) := by
  unfold Cmsg.new
  constructor
  · intro hle
    simp [hle]
  · intro hgt
    simp [show ¬ d.length ≤ c_uint_MAX by omega]

theorem cmsg_new_spec_witness :
    Cmsg.new 1 2 [170] = some { cmsg_level := 1, cmsg_type := 2, data := [170] } :=
  (cmsg_new_spec 1 2 [170]).1 (by norm_num [c_uint_MAX])

/-- C8 counterexample: binding a datagram socket with a drop guard using a
`Namespaced` (non-filesystem) path leaves the drop guard disabled, so the
guard is not enabled for every path the caller supplies. -/
theorem bind_with_drop_guard_namespaced_counterexample :
    ¬ ((UdDatagram.unbound._bind_with_drop_guard
        (UdSocketPath.Namespaced "sock"))._drop_guard.enabled = true) := by
  decide

/-- C8 (amended): `bind_with_drop_guard`/`bound_with_drop_guard` on the
datagram socket enable the guard with the bound path for every `File` path
but leave the guard untouched for a `Namespaced` path; the listener enables
it for every path; sockets created without requesting cleanup (`unbound`,
`bound`, `bind` without guard, `From<OwnedFd>`) carry a disabled guard. -/
theorem drop_guard_states (s : UdDatagram) (p q : String) (path : UdSocketPath) :
    ((s._bind_with_drop_guard (UdSocketPath.File p))._drop_guard =
      { path := some (UdSocketPath.File p), enabled := true }) ∧
    ((s._bind_with_drop_guard (UdSocketPath.Namespaced q))._drop_guard = s._drop_guard) ∧
    ((UdDatagram._bound (UdSocketPath.File p) true)._drop_guard =
      { path := some (UdSocketPath.File p), enabled := true }) ∧
    ((UdStreamListener._bind path true)._drop_guard = { path := some path, enabled := true }) ∧
    UdDatagram.unbound._drop_guard.enabled = false ∧
    UdDatagram.from_owned_fd._drop_guard.enabled = false ∧
    ((UdDatagram._bound path false)._drop_guard.enabled = false) ∧
    ((UdStreamListener._bind path false)._drop_guard.enabled = false) ∧
    UdStreamListener.from_owned_fd._drop_guard.enabled = false :=
  ⟨rfl, rfl, rfl, rfl, rfl, rfl, rfl, rfl, rfl⟩

/-- C9: `Cmsg::clone_unchecked` yields a control message whose level, type
and payload are all equal to those of the original. -/
theorem clone_unchecked_preserves_fields (m : Cmsg) :
    (m.clone_unchecked).cmsg_level = m.cmsg_level ∧
    (m.clone_unchecked).cmsg_type = m.cmsg_type ∧
    (m.clone_unchecked).data = m.data :=
  ⟨rfl, rfl, rfl⟩
